import Mathlib

/-!
Verification of the financial health scoring core of the
Corporate-Intelligence-Company-HealthStatus repository.

Numbers are modelled as rationals (`ℚ`); nullable Python floats become
`Option ℚ`.  Python's `round(x, n)` is modelled as rounding to the nearest
multiple of `10^-n`.
-/

/-- Python truthiness of a nullable float: `None` and `0.0` are falsy. -/
def pyTruthy (v : Option ℚ) : Bool :=
  match v with
  | none => false
  | some x => x != 0

/-- Python `a or b` on nullable floats: `b` when `a` is `None` or `0.0`. -/
def pyOr (a b : Option ℚ) : Option ℚ :=
  if pyTruthy a then a else b

/-- Python `(a or 0)` on a nullable float. -/
def pyOrZero (a : Option ℚ) : ℚ :=
  match a with
  | none => 0
  | some x => x

/-- The create_gold.safe_divide primitive: `None` when an operand is null or the
denominator is zero, the quotient otherwise. -/
def safe_divide (numerator denominator : Option ℚ) : Option ℚ :=
  match numerator, denominator with
  | none, _ => none
  | _, none => none
  | some n, some d => if d = 0 then none else some (n / d)

/-- The canonical per-year metric values extracted from the silver rows in
create_gold.create_gold_layer (each is `None` when its row or cell is null). -/
structure MetricInputs where
  revenue : Option ℚ
  gross_profit : Option ℚ
  operating_income : Option ℚ
  net_income : Option ℚ
  total_assets : Option ℚ
  total_liabilities : Option ℚ
  total_equity : Option ℚ
  current_assets : Option ℚ
  current_liabilities : Option ℚ
  cash : Option ℚ
  total_debt : Option ℚ
  operating_cf : Option ℚ
  free_cf : Option ℚ
deriving DecidableEq, Repr

/-- The fixed vocabulary of 13 ratios of a RatioSet, plus the two growth
rates carried in the analyzer's metrics dict; every entry is nullable. -/
structure RatioSet where
  current_ratio : Option ℚ := none
  quick_ratio : Option ℚ := none
  cash_ratio : Option ℚ := none
  gross_margin : Option ℚ := none
  operating_margin : Option ℚ := none
  net_margin : Option ℚ := none
  roe : Option ℚ := none
  roa : Option ℚ := none
  debt_to_equity : Option ℚ := none
  debt_to_assets : Option ℚ := none
  asset_turnover : Option ℚ := none
  operating_cash_flow_ratio : Option ℚ := none
  free_cash_flow_margin : Option ℚ := none
  revenue_growth : Option ℚ := none
  profit_growth : Option ℚ := none
deriving DecidableEq, Repr

/-- The ratios dict built in create_gold.create_gold_layer (lines 258-272):
null-safe division everywhere, `quick_ratio` simplified to use
`(current_assets or 0)`, and debt figures falling back from `total_debt`
to `total_liabilities` via Python `or`. -/
def computeRatios (m : MetricInputs) : RatioSet :=
  { current_ratio := safe_divide m.current_assets m.current_liabilities
    quick_ratio := safe_divide (some (pyOrZero m.current_assets - 0)) m.current_liabilities
    cash_ratio := safe_divide m.cash m.current_liabilities
    gross_margin := safe_divide m.gross_profit m.revenue
    operating_margin := safe_divide m.operating_income m.revenue
    net_margin := safe_divide m.net_income m.revenue
    roe := safe_divide m.net_income m.total_equity
    roa := safe_divide m.net_income m.total_assets
    debt_to_equity := safe_divide (pyOr m.total_debt m.total_liabilities) m.total_equity
    debt_to_assets := safe_divide (pyOr m.total_debt m.total_liabilities) m.total_assets
    asset_turnover := safe_divide m.revenue m.total_assets
    operating_cash_flow_ratio := safe_divide m.operating_cf m.current_liabilities
    free_cash_flow_margin := safe_divide m.free_cf m.revenue
    revenue_growth := none
    profit_growth := none }

/-! ## Scheme (a): create_gold.calculate_health_score -/

/-- Python `round(x, 2)` modelled as rounding to the nearest hundredth. -/
def round2 (x : ℚ) : ℚ := (round (x * 100) : ℤ) / 100

/-- Python `round(x, 1)` modelled as rounding to the nearest tenth. -/
def round1 (x : ℚ) : ℚ := (round (x * 10) : ℤ) / 10

/-- Points awarded for current_ratio (out of 10) in calculate_health_score. -/
def crPoints (cr : ℚ) : ℚ :=
  if cr ≥ 2 then 10 else if cr ≥ 3/2 then 8 else if cr ≥ 1 then 5
  else if cr ≥ 1/2 then 2 else 0

/-- Points awarded for cash_ratio (out of 10) in calculate_health_score. -/
def cashRPoints (cash_r : ℚ) : ℚ :=
  if cash_r ≥ 1/2 then 10 else if cash_r ≥ 1/4 then 7
  else if cash_r ≥ 1/10 then 4 else 0

/-- Points awarded for net_margin (out of 15) in calculate_health_score. -/
def nmPoints (nm : ℚ) : ℚ :=
  if nm ≥ 1/5 then 15 else if nm ≥ 1/10 then 12 else if nm ≥ 1/20 then 8
  else if nm ≥ 0 then 4 else 0

/-- Points awarded for roe (out of 15) in calculate_health_score. -/
def roePoints (roe : ℚ) : ℚ :=
  if roe ≥ 1/5 then 15 else if roe ≥ 3/20 then 12 else if roe ≥ 1/10 then 8
  else if roe ≥ 0 then 4 else 0

/-- Points awarded for debt_to_equity (out of 15, lower is better). -/
def dePoints (de : ℚ) : ℚ :=
  if de ≤ 1/2 then 15 else if de ≤ 1 then 12 else if de ≤ 2 then 8
  else if de ≤ 3 then 4 else 0

/-- Points awarded for debt_to_assets (out of 10, lower is better). -/
def daPoints (da : ℚ) : ℚ :=
  if da ≤ 3/10 then 10 else if da ≤ 1/2 then 7 else if da ≤ 7/10 then 4 else 0

/-- Points awarded for operating_cash_flow_ratio (out of 15). -/
def ocfPoints (ocf : ℚ) : ℚ :=
  if ocf ≥ 1 then 15 else if ocf ≥ 1/2 then 10 else if ocf ≥ 1/5 then 5 else 0

/-- Points awarded for free_cash_flow_margin (out of 10). -/
def fcfPoints (fcf : ℚ) : ℚ :=
  if fcf ≥ 3/20 then 10 else if fcf ≥ 1/10 then 7 else if fcf ≥ 1/20 then 4
  else if fcf ≥ 0 then 2 else 0

/-- One metric's contribution in calculate_health_score: a present ratio
adds its band points to `score` and its per-metric maximum to `max_score`;
an absent ratio adds nothing to either. -/
def contrib (v : Option ℚ) (maxPts : ℚ) (band : ℚ → ℚ) : ℚ × ℚ :=
  match v with
  | none => (0, 0)
  | some x => (band x, maxPts)

/-- The eight (points, max_points) contributions of calculate_health_score,
in source order. -/
def healthParts (r : RatioSet) : List (ℚ × ℚ) :=
  [contrib r.current_ratio 10 crPoints,
   contrib r.cash_ratio 10 cashRPoints,
   contrib r.net_margin 15 nmPoints,
   contrib r.roe 15 roePoints,
   contrib r.debt_to_equity 15 dePoints,
   contrib r.debt_to_assets 10 daPoints,
   contrib r.operating_cash_flow_ratio 15 ocfPoints,
   contrib r.free_cash_flow_margin 10 fcfPoints]

/-- The create_gold.calculate_health_score scheme: accumulate points over the eight
tracked ratios, normalize by the attainable maximum, round to 2 decimals;
`None` when no tracked ratio is present (`max_score == 0`). -/
def calculate_health_score (r : RatioSet) : Option ℚ :=
  let score := ((healthParts r).map Prod.fst).sum
  let max_score := ((healthParts r).map Prod.snd).sum
  if max_score > 0 then some (round2 (score / max_score * 100)) else none

/-- The create_gold.get_health_status classifier. -/
def get_health_status (score : Option ℚ) : String :=
  match score with
  | none => "Unknown"
  | some s =>
    if s ≥ 80 then "Excellent"
    else if s ≥ 65 then "Good"
    else if s ≥ 50 then "Fair"
    else if s ≥ 35 then "Concerning"
    else "Poor"

/-! ## Scheme (b): health_analyzer.FinancialHealthAnalyzer -/

/-- One named threshold row of FinancialHealthAnalyzer.THRESHOLDS. -/
structure ThresholdRow where
  excellent : ℚ
  good : ℚ
  fair : ℚ
  poor : ℚ
deriving DecidableEq, Repr

/-- The FinancialHealthAnalyzer.THRESHOLDS table: the per-metric benchmark bands;
`none` for a metric name absent from the dict. -/
def THRESHOLDS (name : String) : Option ThresholdRow :=
  match name with
  | "current_ratio" => some ⟨2, 3/2, 1, 1/2⟩
  | "quick_ratio" => some ⟨3/2, 1, 7/10, 3/10⟩
  | "cash_ratio" => some ⟨1/2, 3/10, 3/20, 1/20⟩
  | "gross_margin" => some ⟨1/2, 7/20, 1/5, 1/10⟩
  | "operating_margin" => some ⟨1/4, 3/20, 2/25, 0⟩
  | "net_margin" => some ⟨1/5, 1/10, 1/20, 0⟩
  | "roe" => some ⟨1/5, 3/20, 1/10, 1/20⟩
  | "roa" => some ⟨3/20, 1/10, 1/20, 1/50⟩
  | "debt_to_equity" => some ⟨1/2, 1, 2, 3⟩
  | "debt_to_assets" => some ⟨3/10, 1/2, 3/5, 7/10⟩
  | "operating_cash_flow_ratio" => some ⟨1, 3/5, 3/10, 1/10⟩
  | "free_cash_flow_margin" => some ⟨3/20, 1/10, 1/20, 0⟩
  | _ => none

/-- The five-band comparison inside score_metric: `reverse` flips the
comparison direction for metrics where lower is better. -/
def bandScore (t : ThresholdRow) (v : ℚ) (reverse : Bool) : ℚ :=
  if reverse then
    if v ≤ t.excellent then 100
    else if v ≤ t.good then 75
    else if v ≤ t.fair then 50
    else if v ≤ t.poor then 25
    else 10
  else
    if v ≥ t.excellent then 100
    else if v ≥ t.good then 75
    else if v ≥ t.fair then 50
    else if v ≥ t.poor then 25
    else 10

/-- The FinancialHealthAnalyzer.score_metric function: `None` for a null value or an
unknown metric name, the five-band score otherwise. -/
def score_metric (name : String) (value : Option ℚ) (reverse : Bool) : Option ℚ :=
  match value with
  | none => none
  | some v =>
    match THRESHOLDS name with
    | none => none
    | some t => some (bandScore t v reverse)

/-- The `if value is not None: scores.append(...)` step shared by the
analyze_* methods: a present metric contributes its one sub-score, an
absent one contributes nothing. -/
def optScore (v : Option ℚ) (f : ℚ → ℚ) : List ℚ :=
  match v with
  | some x => [f x]
  | none => []

/-- Sub-scores collected by analyze_liquidity (current_ratio, cash_ratio).
For these metric names score_metric always returns a number; `getD 0`
totalizes the impossible `None` branch. -/
def liquidityScores (m : RatioSet) : List ℚ :=
  optScore m.current_ratio (fun cr => (score_metric ("current_ratio") (some cr) false).getD 0) ++
  optScore m.cash_ratio (fun cash_r => (score_metric ("cash_ratio") (some cash_r) false).getD 0)

/-- Sub-scores collected by analyze_profitability over its five metrics. -/
def profitabilityScores (m : RatioSet) : List ℚ :=
  optScore m.gross_margin (fun v => (score_metric ("gross_margin") (some v) false).getD 0) ++
  optScore m.operating_margin
    (fun v => (score_metric ("operating_margin") (some v) false).getD 0) ++
  optScore m.net_margin (fun v => (score_metric ("net_margin") (some v) false).getD 0) ++
  optScore m.roe (fun v => (score_metric ("roe") (some v) false).getD 0) ++
  optScore m.roa (fun v => (score_metric ("roa") (some v) false).getD 0)

/-- Sub-scores collected by analyze_leverage (reverse scoring). -/
def leverageScores (m : RatioSet) : List ℚ :=
  optScore m.debt_to_equity (fun de => (score_metric ("debt_to_equity") (some de) true).getD 0) ++
  optScore m.debt_to_assets (fun da => (score_metric ("debt_to_assets") (some da) true).getD 0)

/-- Sub-scores collected by analyze_cash_flow. -/
def cashFlowScores (m : RatioSet) : List ℚ :=
  optScore m.operating_cash_flow_ratio
    (fun ocf => (score_metric ("operating_cash_flow_ratio") (some ocf) false).getD 0) ++
  optScore m.free_cash_flow_margin
    (fun fcf => (score_metric ("free_cash_flow_margin") (some fcf) false).getD 0)

/-- Growth band for revenue_growth in analyze_growth. -/
def revenueGrowthBand (g : ℚ) : ℚ :=
  if g > 1/5 then 100 else if g > 1/10 then 75 else if g > 0 then 50 else 25

/-- Growth band for profit_growth in analyze_growth. -/
def profitGrowthBand (g : ℚ) : ℚ :=
  if g > 3/20 then 100 else if g > 0 then 75 else if g > -(1/10) then 50 else 25

/-- Sub-scores collected by analyze_growth. -/
def growthScores (m : RatioSet) : List ℚ :=
  optScore m.revenue_growth revenueGrowthBand ++
  optScore m.profit_growth profitGrowthBand

/-- The category average used at the end of every analyze_* method:
`sum(scores) / len(scores) if scores else default`. -/
def categoryAverage (scores : List ℚ) (default : ℚ) : ℚ :=
  if scores = [] then default else scores.sum / scores.length

/-- The self.scores dict: a key is `none` while its analyze_* method has
not run. -/
structure Scores where
  liquidity : Option ℚ := none
  profitability : Option ℚ := none
  leverage : Option ℚ := none
  cash_flow : Option ℚ := none
  growth : Option ℚ := none
deriving DecidableEq, Repr

/-- The scores dict after run_full_analysis has called every analyze_*
method: every category key is present; an empty category averages to 0,
except growth which defaults to the neutral 50. -/
def fullScores (m : RatioSet) : Scores :=
  { liquidity := some (categoryAverage (liquidityScores m) 0)
    profitability := some (categoryAverage (profitabilityScores m) 0)
    leverage := some (categoryAverage (leverageScores m) 0)
    cash_flow := some (categoryAverage (cashFlowScores m) 0)
    growth := some (categoryAverage (growthScores m) 50) }

/-- A present category's contribution to total_score in
calculate_overall_score. -/
def weightedPart (c : Option ℚ) (w : ℚ) : ℚ :=
  match c with
  | some s => s * w
  | none => 0

/-- A present category's contribution to total_weight in
calculate_overall_score. -/
def weightPart (c : Option ℚ) (w : ℚ) : ℚ :=
  match c with
  | some _ => w
  | none => 0

/-- The status banding at the end of calculate_overall_score. -/
def statusB (s : ℚ) : String :=
  if s ≥ 80 then "EXCELENTE"
  else if s ≥ 65 then "BOM"
  else if s ≥ 50 then "RAZOÁVEL"
  else if s ≥ 35 then "PREOCUPANTE"
  else "CRÍTICO"

/-- The FinancialHealthAnalyzer.calculate_overall_score step: weights the category
scores present in the scores dict by CATEGORY_WEIGHTS (liquidity 0.15,
profitability 0.30, leverage 0.20, cash_flow 0.20, growth 0.15), divides
by the weight actually present, rounds to 1 decimal (0 when no category
is present), and bands the result into a status string. -/
def calculate_overall_score (s : Scores) : ℚ × String :=
  let total_score :=
    weightedPart s.liquidity (3/20) + weightedPart s.profitability (3/10) +
    weightedPart s.leverage (1/5) + weightedPart s.cash_flow (1/5) +
    weightedPart s.growth (3/20)
  let total_weight :=
    weightPart s.liquidity (3/20) + weightPart s.profitability (3/10) +
    weightPart s.leverage (1/5) + weightPart s.cash_flow (1/5) +
    weightPart s.growth (3/20)
  let overall := if total_weight > 0 then round1 (total_score / total_weight) else 0
  (overall, statusB overall)

/-- The overall score of run_full_analysis: every analyze_* method runs,
then calculate_overall_score. -/
def schemeBOverall (m : RatioSet) : ℚ :=
  (calculate_overall_score (fullScores m)).1

/-- The status string of run_full_analysis. -/
def schemeBStatus (m : RatioSet) : String :=
  (calculate_overall_score (fullScores m)).2

/-- An overall score following the spec sentence for scheme (b): average
each category, then weight ONLY the categories that observed at least one
ratio, dividing by the sum of the present categories' weights.  Stated
from the spec text, for comparison with schemeBOverall. -/
def specRenormalizedOverall (m : RatioSet) : ℚ :=
  let cats : List (List ℚ × ℚ) :=
    [(liquidityScores m, 3/20), (profitabilityScores m, 3/10),
     (leverageScores m, 1/5), (cashFlowScores m, 1/5),
     (growthScores m, 3/20)]
  let present := cats.filter (fun c => !c.1.isEmpty)
  let ts := (present.map (fun c => categoryAverage c.1 0 * c.2)).sum
  let tw := (present.map (fun c => c.2)).sum
  ts / tw

/-! ## Growth rates -/

/-- The revenue_growth as computed in create_gold.create_gold_layer line 280:
`safe_divide((revenue or 0) - (previous_revenue or 0), previous_revenue)
if previous_revenue else None`.  The denominator is the signed previous
revenue, not its absolute value. -/
def goldRevenueGrowth (revenue previous_revenue : Option ℚ) : Option ℚ :=
  if pyTruthy previous_revenue then
    safe_divide (some (pyOrZero revenue - pyOrZero previous_revenue)) previous_revenue
  else none

/-- The profit_growth as computed in create_gold.create_gold_layer line 281:
`safe_divide((net_income or 0) - (previous_net_income or 0),
abs(previous_net_income)) if previous_net_income else None`. -/
def goldProfitGrowth (net_income previous_net_income : Option ℚ) : Option ℚ :=
  if pyTruthy previous_net_income then
    safe_divide (some (pyOrZero net_income - pyOrZero previous_net_income))
      (previous_net_income.map (fun x => |x|))
  else none

/-- The growth rate computed in FinancialHealthAnalyzer.load_data (lines
117-120); revenue_growth and profit_growth use this same formula:
`(current - previous) / abs(previous)`, guarded by Python truthiness of
both operands. -/
def analyzerGrowthRate (current previous : Option ℚ) : Option ℚ :=
  if pyTruthy current && pyTruthy previous then
    some ((pyOrZero current - pyOrZero previous) / |pyOrZero previous|)
  else none

/-! ## The gold-layer per-ticker loop -/

/-- One silver_income_statement row (revenue, gross_profit,
operating_income, net_income). -/
structure IncomeRow where
  revenue : Option ℚ
  gross_profit : Option ℚ
  operating_income : Option ℚ
  net_income : Option ℚ
deriving DecidableEq, Repr

/-- One silver_balance_sheet row. -/
structure BalanceRow where
  total_assets : Option ℚ
  total_liabilities : Option ℚ
  total_equity : Option ℚ
  current_assets : Option ℚ
  current_liabilities : Option ℚ
  cash_and_equivalents : Option ℚ
  total_debt : Option ℚ
deriving DecidableEq, Repr

/-- One silver_cash_flow row. -/
structure CashflowRow where
  operating_cash_flow : Option ℚ
  free_cash_flow : Option ℚ
deriving DecidableEq, Repr

/-- The silver data one loop iteration of create_gold_layer fetches for a
fiscal year; a missing row is `none`. -/
structure SilverYear where
  fiscal_year : ℤ
  income_row : Option IncomeRow
  balance_row : Option BalanceRow
  cashflow_row : Option CashflowRow
deriving DecidableEq, Repr

/-- The value extraction of create_gold_layer lines 241-255:
`row[i] if row else None`. -/
def extractInputs (y : SilverYear) : MetricInputs :=
  { revenue := y.income_row.bind IncomeRow.revenue
    gross_profit := y.income_row.bind IncomeRow.gross_profit
    operating_income := y.income_row.bind IncomeRow.operating_income
    net_income := y.income_row.bind IncomeRow.net_income
    total_assets := y.balance_row.bind BalanceRow.total_assets
    total_liabilities := y.balance_row.bind BalanceRow.total_liabilities
    total_equity := y.balance_row.bind BalanceRow.total_equity
    current_assets := y.balance_row.bind BalanceRow.current_assets
    current_liabilities := y.balance_row.bind BalanceRow.current_liabilities
    cash := y.balance_row.bind BalanceRow.cash_and_equivalents
    total_debt := y.balance_row.bind BalanceRow.total_debt
    operating_cf := y.cashflow_row.bind CashflowRow.operating_cash_flow
    free_cf := y.cashflow_row.bind CashflowRow.free_cash_flow }

/-- The record one loop iteration inserts into the two gold tables. -/
structure GoldRow where
  fiscal_year : ℤ
  ratios : RatioSet
  health_score : Option ℚ
  health_status : String
  revenue : Option ℚ
  net_income : Option ℚ
  revenue_growth : Option ℚ
  profit_growth : Option ℚ
deriving DecidableEq, Repr

/-- The body of one (non-skipped) iteration of create_gold_layer, given
the carried previous_revenue / previous_net_income state. -/
def mkGoldRow (y : SilverYear) (previous_revenue previous_net_income : Option ℚ) :
    GoldRow :=
  let m := extractInputs y
  let ratios := computeRatios m
  let hs := calculate_health_score ratios
  { fiscal_year := y.fiscal_year
    ratios := ratios
    health_score := hs
    health_status := get_health_status hs
    revenue := m.revenue
    net_income := m.net_income
    revenue_growth := goldRevenueGrowth m.revenue previous_revenue
    profit_growth := goldProfitGrowth m.net_income previous_net_income }

/-- The per-ticker loop of create_gold_layer over the fiscal years in the
order the query returns them (descending): a year with neither an income
nor a balance row is skipped (and does not update the carried state);
otherwise a gold row is emitted and previous_revenue /
previous_net_income become this year's values. -/
def goldRows (previous_revenue previous_net_income : Option ℚ) :
    List SilverYear → List GoldRow
  | [] => []
  | y :: ys =>
    if y.income_row = none ∧ y.balance_row = none then
      goldRows previous_revenue previous_net_income ys
    else
      mkGoldRow y previous_revenue previous_net_income ::
        goldRows (extractInputs y).revenue (extractInputs y).net_income ys

/-- The create_gold_layer loop for one ticker: the loop starts with both carried
values `None`. -/
def createGoldRows (years : List SilverYear) : List GoldRow :=
  goldRows none none years

/-! ## Ranking (analyze_all_companies) -/

/-- The config.TECH_COMPANIES table in its insertion order. -/
def TECH_COMPANIES : List (String × String) :=
  [("AAPL", "Apple Inc."),
   ("MSFT", "Microsoft Corporation"),
   ("GOOGL", "Alphabet Inc."),
   ("AMZN", "Amazon.com Inc."),
   ("NVDA", "NVIDIA Corporation"),
   ("META", "Meta Platforms Inc."),
   ("TSLA", "Tesla Inc."),
   ("AVGO", "Broadcom Inc."),
   ("ASML", "ASML Holding N.V."),
   ("NFLX", "Netflix Inc.")]

/-- The comparison `results.sort(key=lambda x: x['score'], reverse=True)`
performs: descending in the score component. -/
def rankRel (a b : String × ℚ) : Prop := b.2 ≤ a.2

instance : DecidableRel rankRel := fun a b => inferInstanceAs (Decidable (b.2 ≤ a.2))

instance : IsTotal (String × ℚ) rankRel := ⟨fun a b => le_total b.2 a.2⟩

instance : IsTrans (String × ℚ) rankRel := ⟨fun _ _ _ h1 h2 => le_trans h2 h1⟩

/-- The results list analyze_all_companies builds before sorting: one
(ticker, score) per TECH_COMPANIES entry whose analysis produced a score,
in TECH_COMPANIES order. -/
def unsortedResults (score : String → Option ℚ) : List (String × ℚ) :=
  TECH_COMPANIES.filterMap (fun c => (score c.1).map (fun s => (c.1, s)))

/-- The analyze_all_companies ranking: Python's stable `list.sort` by score
descending, modelled by (stable) insertion sort. -/
def rankedResults (score : String → Option ℚ) : List (String × ℚ) :=
  List.insertionSort rankRel (unsortedResults score)

/-- The ranking the spec sentence describes: score descending with ties
broken by ticker ascending.  Stated from the spec text, for comparison
with rankedResults. -/
def specTieBreakRel (a b : String × ℚ) : Prop :=
  b.2 < a.2 ∨ (a.2 = b.2 ∧ a.1 < b.1)

instance : DecidableRel specTieBreakRel := fun a b =>
  inferInstanceAs (Decidable (b.2 < a.2 ∨ (a.2 = b.2 ∧ a.1 < b.1)))

/-- The spec's ranked list (see specTieBreakRel). -/
def specRankedResults (score : String → Option ℚ) : List (String × ℚ) :=
  List.insertionSort specTieBreakRel (unsortedResults score)

/-! ## Auxiliary definitions used in the theorems -/

/-- The twelve THRESHOLDS metrics with the goodness direction (the
`reverse` flag) their analyze_* call sites use; leverage metrics are
scored with reverse=true, the rest with reverse=false. -/
def trackedMetricDirections : List (String × Bool) :=
  [("current_ratio", false), ("quick_ratio", false), ("cash_ratio", false),
   ("gross_margin", false), ("operating_margin", false), ("net_margin", false),
   ("roe", false), ("roa", false),
   ("debt_to_equity", true), ("debt_to_assets", true),
   ("operating_cash_flow_ratio", false), ("free_cash_flow_margin", false)]

/-- All four named band boundaries of a tracked metric score on the higher
band (inclusive comparison on the good side). -/
def boundaryInclusive (name : String) (reverse : Bool) : Prop :=
  match THRESHOLDS name with
  | none => True
  | some t =>
    score_metric name (some t.excellent) reverse = some 100 ∧
    score_metric name (some t.good) reverse = some 75 ∧
    score_metric name (some t.fair) reverse = some 50 ∧
    score_metric name (some t.poor) reverse = some 25

/-- The relation between two consecutive emitted gold rows: the later
(older-year) row's growth rates are computed against the earlier
(newer-year) row's stored revenue / net income. -/
def goldChainProp (a b : GoldRow) : Prop :=
  b.revenue_growth = goldRevenueGrowth b.revenue a.revenue ∧
  b.profit_growth = goldProfitGrowth b.net_income a.net_income ∧
  b.fiscal_year < a.fiscal_year

/-- A RatioSet with every entry null. -/
def allNoneRatios : RatioSet := {}

/-- A RatioSet whose only observed ratios are one profitability metric
(net_margin at its excellent threshold) and one leverage metric
(debt_to_equity at its excellent threshold). -/
def onlyProfLevRatios : RatioSet :=
  { net_margin := some (1/5), debt_to_equity := some (1/2) }

/-- Metric inputs with a null current_assets but a nonzero
current_liabilities (everything else null). -/
def nullCurrentAssets : MetricInputs :=
  { revenue := none, gross_profit := none, operating_income := none,
    net_income := none, total_assets := none, total_liabilities := none,
    total_equity := none, current_assets := none,
    current_liabilities := some 2, cash := none, total_debt := none,
    operating_cf := none, free_cf := none }

/-- A RatioSet with only a current_ratio observed. -/
def oneRatio : RatioSet := { current_ratio := some 3 }

/-- A score assignment giving MSFT and GOOGL the same score and every
other company none. -/
def tiedScores : String → Option ℚ := fun t =>
  if t = "MSFT" then some 70 else if t = "GOOGL" then some 70 else none

/-- Two descending fiscal years of silver data (income rows only). -/
def twoYears : List SilverYear :=
  [{ fiscal_year := 2024,
     income_row := some { revenue := some 100, gross_profit := none,
                          operating_income := none, net_income := some 20 },
     balance_row := none, cashflow_row := none },
   { fiscal_year := 2023,
     income_row := some { revenue := some 80, gross_profit := none,
                          operating_income := none, net_income := some 10 },
     balance_row := none, cashflow_row := none }]

/-! ## Helper lemmas -/

theorem pyTruthy_eq_false_iff (v : Option ℚ) :
    pyTruthy v = false ↔ v = none ∨ v = some 0 := by
  cases v with
  | none => simp [pyTruthy]
  | some x => simp [pyTruthy]

theorem safe_divide_eq_none_iff (a b : Option ℚ) :
    safe_divide a b = none ↔ a = none ∨ b = none ∨ b = some 0 := by
  cases a with
  | none => simp [safe_divide]
  | some n =>
    cases b with
    | none => simp [safe_divide]
    | some d =>
      by_cases hd : d = 0 <;> simp [safe_divide, hd]

theorem pyOr_eq_none_iff (a b : Option ℚ) :
    pyOr a b = none ↔ (a = none ∨ a = some 0) ∧ b = none := by
  cases a with
  | none => simp [pyOr, pyTruthy]
  | some x =>
    by_cases hx : x = 0
    · subst hx; simp [pyOr, pyTruthy]
    · simp [pyOr, pyTruthy, hx]

theorem round1_bounds {x : ℚ} (h0 : 0 ≤ x) (h1 : x ≤ 100) :
    0 ≤ round1 x ∧ round1 x ≤ 100 := by
  unfold round1
  rw [round_eq]
  constructor
  · have h : (0 : ℤ) ≤ ⌊x * 10 + 1 / 2⌋ := Int.le_floor.mpr (by push_cast; linarith)
    have h' : (0 : ℚ) ≤ (⌊x * 10 + 1 / 2⌋ : ℚ) := by exact_mod_cast h
    linarith
  · have h : ⌊x * 10 + 1 / 2⌋ < 1001 := Int.floor_lt.mpr (by push_cast; linarith)
    have h' : (⌊x * 10 + 1 / 2⌋ : ℚ) ≤ 1000 := by exact_mod_cast Int.lt_add_one_iff.mp h
    linarith

theorem round2_bounds {x : ℚ} (h0 : 0 ≤ x) (h1 : x ≤ 100) :
    0 ≤ round2 x ∧ round2 x ≤ 100 := by
  unfold round2
  rw [round_eq]
  constructor
  · have h : (0 : ℤ) ≤ ⌊x * 100 + 1 / 2⌋ := Int.le_floor.mpr (by push_cast; linarith)
    have h' : (0 : ℚ) ≤ (⌊x * 100 + 1 / 2⌋ : ℚ) := by exact_mod_cast h
    linarith
  · have h : ⌊x * 100 + 1 / 2⌋ < 10001 := Int.floor_lt.mpr (by push_cast; linarith)
    have h' : (⌊x * 100 + 1 / 2⌋ : ℚ) ≤ 10000 := by exact_mod_cast Int.lt_add_one_iff.mp h
    linarith

theorem round_rat_eval (x : ℚ) (n : ℤ) (h1 : (n : ℚ) ≤ x + 1/2)
    (h2 : x + 1/2 < (n : ℚ) + 1) : round x = n := by
  rw [round_eq, Int.floor_eq_iff]
  exact ⟨h1, h2⟩

theorem round1_eval (x : ℚ) (n : ℤ) (h1 : (n : ℚ) ≤ x * 10 + 1/2)
    (h2 : x * 10 + 1/2 < (n : ℚ) + 1) : round1 x = (n : ℚ) / 10 := by
  unfold round1
  rw [round_rat_eval (x * 10) n h1 h2]

theorem round2_eval (x : ℚ) (n : ℤ) (h1 : (n : ℚ) ≤ x * 100 + 1/2)
    (h2 : x * 100 + 1/2 < (n : ℚ) + 1) : round2 x = (n : ℚ) / 100 := by
  unfold round2
  rw [round_rat_eval (x * 100) n h1 h2]

theorem contrib_fst_nonneg (v : Option ℚ) (maxPts : ℚ) (band : ℚ → ℚ)
    (hband : ∀ x, 0 ≤ band x ∧ band x ≤ maxPts) :
    0 ≤ (contrib v maxPts band).1 ∧ (contrib v maxPts band).1 ≤ (contrib v maxPts band).2 := by
  cases v with
  | none => simp [contrib]
  | some x => simpa [contrib] using hband x

theorem crPoints_bounds (x : ℚ) : 0 ≤ crPoints x ∧ crPoints x ≤ 10 := by
  unfold crPoints; split_ifs <;> norm_num

theorem cashRPoints_bounds (x : ℚ) : 0 ≤ cashRPoints x ∧ cashRPoints x ≤ 10 := by
  unfold cashRPoints; split_ifs <;> norm_num

theorem nmPoints_bounds (x : ℚ) : 0 ≤ nmPoints x ∧ nmPoints x ≤ 15 := by
  unfold nmPoints; split_ifs <;> norm_num

theorem roePoints_bounds (x : ℚ) : 0 ≤ roePoints x ∧ roePoints x ≤ 15 := by
  unfold roePoints; split_ifs <;> norm_num

theorem dePoints_bounds (x : ℚ) : 0 ≤ dePoints x ∧ dePoints x ≤ 15 := by
  unfold dePoints; split_ifs <;> norm_num

theorem daPoints_bounds (x : ℚ) : 0 ≤ daPoints x ∧ daPoints x ≤ 10 := by
  unfold daPoints; split_ifs <;> norm_num

theorem ocfPoints_bounds (x : ℚ) : 0 ≤ ocfPoints x ∧ ocfPoints x ≤ 15 := by
  unfold ocfPoints; split_ifs <;> norm_num

theorem fcfPoints_bounds (x : ℚ) : 0 ≤ fcfPoints x ∧ fcfPoints x ≤ 10 := by
  unfold fcfPoints; split_ifs <;> norm_num

theorem healthParts_bounds (r : RatioSet) :
    ∀ p ∈ healthParts r, 0 ≤ p.1 ∧ p.1 ≤ p.2 := by
  intro p hp
  simp only [healthParts, List.mem_cons, List.not_mem_nil, or_false] at hp
  rcases hp with h | h | h | h | h | h | h | h <;> subst h
  · exact contrib_fst_nonneg _ _ _ crPoints_bounds
  · exact contrib_fst_nonneg _ _ _ cashRPoints_bounds
  · exact contrib_fst_nonneg _ _ _ nmPoints_bounds
  · exact contrib_fst_nonneg _ _ _ roePoints_bounds
  · exact contrib_fst_nonneg _ _ _ dePoints_bounds
  · exact contrib_fst_nonneg _ _ _ daPoints_bounds
  · exact contrib_fst_nonneg _ _ _ ocfPoints_bounds
  · exact contrib_fst_nonneg _ _ _ fcfPoints_bounds

theorem health_score_some_bounds (r : RatioSet) (x : ℚ)
    (h : calculate_health_score r = some x) : 0 ≤ x ∧ x ≤ 100 := by
  unfold calculate_health_score at h
  set score := ((healthParts r).map Prod.fst).sum with hscore
  set max_score := ((healthParts r).map Prod.snd).sum with hmax
  by_cases hpos : max_score > 0
  · rw [if_pos hpos, Option.some.injEq] at h
    have hs0 : 0 ≤ score := by
      rw [hscore]
      apply List.sum_nonneg
      intro a ha
      obtain ⟨p, hp, rfl⟩ := List.mem_map.mp ha
      exact (healthParts_bounds r p hp).1
    have hsm : score ≤ max_score := by
      rw [hscore, hmax]
      apply List.sum_le_sum
      intro p hp
      exact (healthParts_bounds r p hp).2
    have h1 : 0 ≤ score / max_score * 100 := by positivity
    have h2 : score / max_score * 100 ≤ 100 := by
      have : score / max_score ≤ 1 := by
        rw [div_le_one hpos]; exact hsm
      nlinarith
    rcases round2_bounds h1 h2 with ⟨hb1, hb2⟩
    constructor <;> simp [← h, hb1, hb2]
  · rw [if_neg hpos] at h
    exact absurd h (by simp)

theorem contrib_snd_nonneg (v : Option ℚ) (maxPts : ℚ) (band : ℚ → ℚ)
    (hM : 0 ≤ maxPts) : 0 ≤ (contrib v maxPts band).2 := by
  cases v <;> simp [contrib, hM]

theorem contrib_snd_le_zero (v : Option ℚ) (maxPts : ℚ) (band : ℚ → ℚ)
    (hM : 10 ≤ maxPts) (h : (contrib v maxPts band).2 ≤ 0) : v = none := by
  cases v with
  | none => rfl
  | some x => simp only [contrib] at h; linarith

theorem healthMaxExpand (r : RatioSet) :
    ((healthParts r).map Prod.snd).sum =
      (contrib r.current_ratio 10 crPoints).2 + (contrib r.cash_ratio 10 cashRPoints).2 +
      (contrib r.net_margin 15 nmPoints).2 + (contrib r.roe 15 roePoints).2 +
      (contrib r.debt_to_equity 15 dePoints).2 + (contrib r.debt_to_assets 10 daPoints).2 +
      (contrib r.operating_cash_flow_ratio 15 ocfPoints).2 +
      (contrib r.free_cash_flow_margin 10 fcfPoints).2 := by
  simp [healthParts]
  ring

theorem health_score_eq_none_iff (r : RatioSet) :
    calculate_health_score r = none ↔
      r.current_ratio = none ∧ r.cash_ratio = none ∧ r.net_margin = none ∧
      r.roe = none ∧ r.debt_to_equity = none ∧ r.debt_to_assets = none ∧
      r.operating_cash_flow_ratio = none ∧ r.free_cash_flow_margin = none := by
  have h1 := contrib_snd_nonneg r.current_ratio 10 crPoints (by norm_num)
  have h2 := contrib_snd_nonneg r.cash_ratio 10 cashRPoints (by norm_num)
  have h3 := contrib_snd_nonneg r.net_margin 15 nmPoints (by norm_num)
  have h4 := contrib_snd_nonneg r.roe 15 roePoints (by norm_num)
  have h5 := contrib_snd_nonneg r.debt_to_equity 15 dePoints (by norm_num)
  have h6 := contrib_snd_nonneg r.debt_to_assets 10 daPoints (by norm_num)
  have h7 := contrib_snd_nonneg r.operating_cash_flow_ratio 15 ocfPoints (by norm_num)
  have h8 := contrib_snd_nonneg r.free_cash_flow_margin 10 fcfPoints (by norm_num)
  constructor
  · intro h
    have hle : ((healthParts r).map Prod.snd).sum ≤ 0 := by
      unfold calculate_health_score at h
      by_cases hp : ((healthParts r).map Prod.snd).sum > 0
      · rw [if_pos hp] at h; exact absurd h (by simp)
      · exact not_lt.mp hp
    rw [healthMaxExpand r] at hle
    refine ⟨?_, ?_, ?_, ?_, ?_, ?_, ?_, ?_⟩
    · exact contrib_snd_le_zero r.current_ratio 10 crPoints (by norm_num) (by linarith)
    · exact contrib_snd_le_zero r.cash_ratio 10 cashRPoints (by norm_num) (by linarith)
    · exact contrib_snd_le_zero r.net_margin 15 nmPoints (by norm_num) (by linarith)
    · exact contrib_snd_le_zero r.roe 15 roePoints (by norm_num) (by linarith)
    · exact contrib_snd_le_zero r.debt_to_equity 15 dePoints (by norm_num) (by linarith)
    · exact contrib_snd_le_zero r.debt_to_assets 10 daPoints (by norm_num) (by linarith)
    · exact contrib_snd_le_zero r.operating_cash_flow_ratio 15 ocfPoints (by norm_num)
        (by linarith)
    · exact contrib_snd_le_zero r.free_cash_flow_margin 10 fcfPoints (by norm_num)
        (by linarith)
  · rintro ⟨c1, c2, c3, c4, c5, c6, c7, c8⟩
    simp [calculate_health_score, healthParts, contrib, c1, c2, c3, c4, c5, c6, c7, c8]

theorem bandScore_bounds (t : ThresholdRow) (v : ℚ) (rev : Bool) :
    10 ≤ bandScore t v rev ∧ bandScore t v rev ≤ 100 := by
  unfold bandScore; split_ifs <;> norm_num

theorem score_metric_getD_bounds (n : String) (v : Option ℚ) (rev : Bool) :
    0 ≤ (score_metric n v rev).getD 0 ∧ (score_metric n v rev).getD 0 ≤ 100 := by
  cases v with
  | none => simp [score_metric]
  | some x =>
    cases h : THRESHOLDS n with
    | none => simp [score_metric, h]
    | some t =>
      have hb := bandScore_bounds t x rev
      simp only [score_metric, h, Option.getD_some]
      exact ⟨by linarith [hb.1], hb.2⟩

theorem optScore_bounds {v : Option ℚ} {f : ℚ → ℚ}
    (hf : ∀ x, 0 ≤ f x ∧ f x ≤ 100) {s : ℚ} (h : s ∈ optScore v f) :
    0 ≤ s ∧ s ≤ 100 := by
  cases v with
  | none => simp [optScore] at h
  | some x =>
    simp only [optScore, List.mem_singleton] at h
    subst h
    exact hf x

theorem liquidityScores_bounds (m : RatioSet) :
    ∀ s ∈ liquidityScores m, 0 ≤ s ∧ s ≤ 100 := by
  intro s hs
  unfold liquidityScores at hs
  rcases List.mem_append.mp hs with h | h <;>
    exact optScore_bounds (fun x => score_metric_getD_bounds _ _ _) h

theorem profitabilityScores_bounds (m : RatioSet) :
    ∀ s ∈ profitabilityScores m, 0 ≤ s ∧ s ≤ 100 := by
  intro s hs
  unfold profitabilityScores at hs
  simp only [List.mem_append] at hs
  rcases hs with ((((h | h) | h) | h) | h) <;>
    exact optScore_bounds (fun x => score_metric_getD_bounds _ _ _) h

theorem leverageScores_bounds (m : RatioSet) :
    ∀ s ∈ leverageScores m, 0 ≤ s ∧ s ≤ 100 := by
  intro s hs
  unfold leverageScores at hs
  rcases List.mem_append.mp hs with h | h <;>
    exact optScore_bounds (fun x => score_metric_getD_bounds _ _ _) h

theorem cashFlowScores_bounds (m : RatioSet) :
    ∀ s ∈ cashFlowScores m, 0 ≤ s ∧ s ≤ 100 := by
  intro s hs
  unfold cashFlowScores at hs
  rcases List.mem_append.mp hs with h | h <;>
    exact optScore_bounds (fun x => score_metric_getD_bounds _ _ _) h

theorem revenueGrowthBand_bounds (g : ℚ) :
    0 ≤ revenueGrowthBand g ∧ revenueGrowthBand g ≤ 100 := by
  unfold revenueGrowthBand; split_ifs <;> norm_num

theorem profitGrowthBand_bounds (g : ℚ) :
    0 ≤ profitGrowthBand g ∧ profitGrowthBand g ≤ 100 := by
  unfold profitGrowthBand; split_ifs <;> norm_num

theorem growthScores_bounds (m : RatioSet) :
    ∀ s ∈ growthScores m, 0 ≤ s ∧ s ≤ 100 := by
  intro s hs
  unfold growthScores at hs
  rcases List.mem_append.mp hs with h | h
  · exact optScore_bounds revenueGrowthBand_bounds h
  · exact optScore_bounds profitGrowthBand_bounds h

theorem categoryAverage_bounds {l : List ℚ} {d : ℚ}
    (hl : ∀ s ∈ l, 0 ≤ s ∧ s ≤ 100) (hd0 : 0 ≤ d) (hd1 : d ≤ 100) :
    0 ≤ categoryAverage l d ∧ categoryAverage l d ≤ 100 := by
  unfold categoryAverage
  split_ifs with h
  · exact ⟨hd0, hd1⟩
  · have hlen : 0 < (l.length : ℚ) := by
      have hne : l ≠ [] := h
      have : 0 < l.length := List.length_pos.mpr hne
      exact_mod_cast this
    constructor
    · exact div_nonneg (List.sum_nonneg fun x hx => (hl x hx).1) hlen.le
    · rw [div_le_iff hlen]
      have hsum := List.sum_le_card_nsmul l 100 (fun x hx => (hl x hx).2)
      rw [nsmul_eq_mul] at hsum
      linarith [hsum]

theorem schemeBOverall_eq (m : RatioSet) :
    schemeBOverall m = round1 (
      categoryAverage (liquidityScores m) 0 * (3/20) +
      categoryAverage (profitabilityScores m) 0 * (3/10) +
      categoryAverage (leverageScores m) 0 * (1/5) +
      categoryAverage (cashFlowScores m) 0 * (1/5) +
      categoryAverage (growthScores m) 50 * (3/20)) := by
  unfold schemeBOverall calculate_overall_score fullScores
  simp only [weightedPart, weightPart]
  norm_num

theorem schemeBOverall_bounds (m : RatioSet) :
    0 ≤ schemeBOverall m ∧ schemeBOverall m ≤ 100 := by
  obtain ⟨a1, b1⟩ := categoryAverage_bounds (liquidityScores_bounds m)
    (le_refl 0) (by norm_num)
  obtain ⟨a2, b2⟩ := categoryAverage_bounds (profitabilityScores_bounds m)
    (le_refl 0) (by norm_num)
  obtain ⟨a3, b3⟩ := categoryAverage_bounds (leverageScores_bounds m)
    (le_refl 0) (by norm_num)
  obtain ⟨a4, b4⟩ := categoryAverage_bounds (cashFlowScores_bounds m)
    (le_refl 0) (by norm_num)
  obtain ⟨a5, b5⟩ := categoryAverage_bounds (growthScores_bounds m)
    (by norm_num : (0:ℚ) ≤ 50) (by norm_num)
  rw [schemeBOverall_eq]
  exact round1_bounds (by linarith) (by linarith)

/-! ## Claims -/

/-- C1: in both scoring schemes the status classification is the fixed
five-band step function of the overall score (s ≥ 80 Excellent,
80 > s ≥ 65 Good, 65 > s ≥ 50 Fair, 50 > s ≥ 35 Concerning, s < 35 Poor,
with the analyzer's Portuguese labels banding identically), and the
status is Unknown exactly when the overall score is undefined. -/
theorem health_status_breakpoints :
    ∀ s : ℚ,
      (80 ≤ s → get_health_status (some s) = "Excellent") ∧
      (65 ≤ s → s < 80 → get_health_status (some s) = "Good") ∧
      (50 ≤ s → s < 65 → get_health_status (some s) = "Fair") ∧
      (35 ≤ s → s < 50 → get_health_status (some s) = "Concerning") ∧
      (s < 35 → get_health_status (some s) = "Poor") ∧
      (∀ x : Option ℚ, get_health_status x = "Unknown" ↔ x = none) ∧
      (statusB s = "EXCELENTE" ↔ get_health_status (some s) = "Excellent") ∧
      (statusB s = "BOM" ↔ get_health_status (some s) = "Good") ∧
      (statusB s = "RAZOÁVEL" ↔ get_health_status (some s) = "Fair") ∧
      (statusB s = "PREOCUPANTE" ↔ get_health_status (some s) = "Concerning") ∧
      (statusB s = "CRÍTICO" ↔ get_health_status (some s) = "Poor") ∧
      statusB s ≠ "UNKNOWN" := by
  intro s
  refine ⟨?_, ?_, ?_, ?_, ?_, ?_, ?_, ?_, ?_, ?_, ?_, ?_⟩
  · intro h; simp only [get_health_status]; split_ifs <;> first | rfl | linarith
  · intro h1 h2; simp only [get_health_status]; split_ifs <;> first | rfl | linarith
  · intro h1 h2; simp only [get_health_status]; split_ifs <;> first | rfl | linarith
  · intro h1 h2; simp only [get_health_status]; split_ifs <;> first | rfl | linarith
  · intro h; simp only [get_health_status]; split_ifs <;> first | rfl | linarith
  · intro x
    cases x with
    | none => simp [get_health_status]
    | some v => simp only [get_health_status]; split_ifs <;> simp
  · simp only [statusB, get_health_status]; split_ifs <;> simp
  · simp only [statusB, get_health_status]; split_ifs <;> simp
  · simp only [statusB, get_health_status]; split_ifs <;> simp
  · simp only [statusB, get_health_status]; split_ifs <;> simp
  · simp only [statusB, get_health_status]; split_ifs <;> simp
  · simp only [statusB]; split_ifs <;> simp

/-- Witness for C1 at concrete scores on both sides of each breakpoint. -/
theorem health_status_breakpoints_applied :
    get_health_status (some 90) = "Excellent" ∧
    get_health_status (some 70) = "Good" ∧
    get_health_status (some 55) = "Fair" ∧
    get_health_status (some 40) = "Concerning" ∧
    get_health_status (some 30) = "Poor" ∧
    get_health_status none = "Unknown" ∧
    statusB 90 = "EXCELENTE" :=
  ⟨(health_status_breakpoints 90).1 (by norm_num),
   (health_status_breakpoints 70).2.1 (by norm_num) (by norm_num),
   (health_status_breakpoints 55).2.2.1 (by norm_num) (by norm_num),
   (health_status_breakpoints 40).2.2.2.1 (by norm_num) (by norm_num),
   (health_status_breakpoints 30).2.2.2.2.1 (by norm_num),
   ((health_status_breakpoints 0).2.2.2.2.2.1 none).mpr rfl,
   ((health_status_breakpoints 90).2.2.2.2.2.2.1).mpr
     ((health_status_breakpoints 90).1 (by norm_num))⟩

/-- C5: safe_divide returns null when either operand is null or the
denominator is zero, and the quotient otherwise. -/
theorem safe_divide_spec :
    (∀ x : Option ℚ, safe_divide x none = none) ∧
    (∀ x : Option ℚ, safe_divide x (some 0) = none) ∧
    (∀ d : Option ℚ, safe_divide none d = none) ∧
    (∀ n d : ℚ, d ≠ 0 → safe_divide (some n) (some d) = some (n / d)) ∧
    safe_divide (some 10) (some 4) = some (5/2) := by
  refine ⟨?_, ?_, ?_, ?_, ?_⟩
  · intro x; cases x <;> rfl
  · intro x; cases x <;> simp [safe_divide]
  · intro d; cases d <;> rfl
  · intro n d hd; simp [safe_divide, hd]
  · norm_num [safe_divide]

/-- Witness for C5's quotient case at 10 / 4. -/
theorem safe_divide_spec_applied : safe_divide (some 10) (some 4) = some (10 / 4) :=
  safe_divide_spec.2.2.2.1 10 4 (by norm_num)

/-- C3 counterexample: with every tracked ratio null, scheme (a) returns
None, not the score 0 the claim states. -/
theorem zero_ratios_score_counterexample :
    calculate_health_score allNoneRatios = none ∧
    calculate_health_score allNoneRatios ≠ some 0 := by
  have h : calculate_health_score allNoneRatios = none :=
    (health_score_eq_none_iff allNoneRatios).mpr ⟨rfl, rfl, rfl, rfl, rfl, rfl, rfl, rfl⟩
  exact ⟨h, by rw [h]; simp⟩

/-- C3 (amended): with zero tracked ratios available, scheme (a) leaves the
overall score undefined (None), which get_health_status maps to Unknown. -/
theorem zero_ratios_score_none :
    ∀ r : RatioSet,
      r.current_ratio = none → r.cash_ratio = none → r.net_margin = none →
      r.roe = none → r.debt_to_equity = none → r.debt_to_assets = none →
      r.operating_cash_flow_ratio = none → r.free_cash_flow_margin = none →
      calculate_health_score r = none ∧
      get_health_status (calculate_health_score r) = "Unknown" := by
  intro r h1 h2 h3 h4 h5 h6 h7 h8
  have h : calculate_health_score r = none :=
    (health_score_eq_none_iff r).mpr ⟨h1, h2, h3, h4, h5, h6, h7, h8⟩
  exact ⟨h, by rw [h]; rfl⟩

/-- Witness for C3's amended statement on the all-null RatioSet. -/
theorem zero_ratios_score_none_applied :
    calculate_health_score allNoneRatios = none ∧
    get_health_status (calculate_health_score allNoneRatios) = "Unknown" :=
  zero_ratios_score_none allNoneRatios rfl rfl rfl rfl rfl rfl rfl rfl

/-- C8: a defined scheme-(a) score always lies in [0,100], the score is
undefined exactly when no tracked ratio is present, and the scheme-(b)
overall score always lies in [0,100]. -/
theorem overall_score_range :
    ∀ r : RatioSet,
      (∀ x : ℚ, calculate_health_score r = some x → 0 ≤ x ∧ x ≤ 100) ∧
      (calculate_health_score r = none ↔
        r.current_ratio = none ∧ r.cash_ratio = none ∧ r.net_margin = none ∧
        r.roe = none ∧ r.debt_to_equity = none ∧ r.debt_to_assets = none ∧
        r.operating_cash_flow_ratio = none ∧ r.free_cash_flow_margin = none) ∧
      (0 ≤ schemeBOverall r ∧ schemeBOverall r ≤ 100) :=
  fun r => ⟨fun x h => health_score_some_bounds r x h,
            health_score_eq_none_iff r, schemeBOverall_bounds r⟩

/-- Witness for C8 on a RatioSet with one observed ratio, whose score
evaluates to 100. -/
theorem overall_score_range_applied :
    calculate_health_score oneRatio = some 100 ∧ (0 ≤ (100:ℚ) ∧ (100:ℚ) ≤ 100) := by
  have e1 : calculate_health_score oneRatio = some (round2 (10 / 10 * 100)) := by
    norm_num [calculate_health_score, healthParts, oneRatio, contrib, crPoints]
  have e2 : round2 ((10:ℚ) / 10 * 100) = 100 := by
    have : ((10:ℚ) / 10 * 100) = 100 := by norm_num
    rw [this, round2_eval 100 10000 (by norm_num) (by norm_num)]
    norm_num
  have h : calculate_health_score oneRatio = some 100 := by rw [e1, e2]
  exact ⟨h, (overall_score_range oneRatio).1 100 h⟩

/-- C2 counterexample: with observed ratios only in profitability and
leverage (both scoring 100), run_full_analysis produces 57.5 — the
empty categories are zero-filled (growth 50-filled) and keep their
weights — while the spec's renormalized aggregate would give 100. -/
theorem category_weights_counterexample :
    schemeBOverall onlyProfLevRatios = 115/2 ∧
    specRenormalizedOverall onlyProfLevRatios = 100 ∧
    (115/2 : ℚ) ≠ 100 := by
  have hliq : liquidityScores onlyProfLevRatios = [] := by
    simp [liquidityScores, onlyProfLevRatios, optScore]
  have hprof : profitabilityScores onlyProfLevRatios = [100] := by
    norm_num [profitabilityScores, onlyProfLevRatios, optScore, score_metric,
      THRESHOLDS, bandScore]
  have hlev : leverageScores onlyProfLevRatios = [100] := by
    norm_num [leverageScores, onlyProfLevRatios, optScore, score_metric,
      THRESHOLDS, bandScore]
  have hcf : cashFlowScores onlyProfLevRatios = [] := by
    simp [cashFlowScores, onlyProfLevRatios, optScore]
  have hgrow : growthScores onlyProfLevRatios = [] := by
    simp [growthScores, onlyProfLevRatios, optScore]
  refine ⟨?_, ?_, by norm_num⟩
  · rw [schemeBOverall_eq, hliq, hprof, hlev, hcf, hgrow]
    have harg : categoryAverage ([] : List ℚ) 0 * (3/20) +
        categoryAverage [100] 0 * (3/10) + categoryAverage [100] 0 * (1/5) +
        categoryAverage ([] : List ℚ) 0 * (1/5) +
        categoryAverage ([] : List ℚ) 50 * (3/20) = 115/2 := by
      norm_num [categoryAverage]
    rw [harg, round1_eval (115/2) 575 (by norm_num) (by norm_num)]
    norm_num
  · norm_num [specRenormalizedOverall, hliq, hprof, hlev, hgrow, hcf, categoryAverage]

/-- C2 (corrected): the analyze_* methods zero-fill categories with no
observed ratios (growth defaults to 50), so after a full analysis every
category keeps its nominal weight and the denominator is always 1: the
overall score is the rounded weighted sum of all five category averages,
and when only profitability and leverage have data their contribution
weights stay 0.30 and 0.20 (plus 7.5 points from the growth default),
not the renormalized 0.6 / 0.4. -/
theorem category_weights_zero_filled :
    ∀ m : RatioSet,
      schemeBOverall m = round1 (
        categoryAverage (liquidityScores m) 0 * (3/20) +
        categoryAverage (profitabilityScores m) 0 * (3/10) +
        categoryAverage (leverageScores m) 0 * (1/5) +
        categoryAverage (cashFlowScores m) 0 * (1/5) +
        categoryAverage (growthScores m) 50 * (3/20)) ∧
      (liquidityScores m = [] → cashFlowScores m = [] → growthScores m = [] →
        schemeBOverall m = round1 (
          categoryAverage (profitabilityScores m) 0 * (3/10) +
          categoryAverage (leverageScores m) 0 * (1/5) + 15/2)) := by
  intro m
  refine ⟨schemeBOverall_eq m, ?_⟩
  intro h1 h2 h3
  rw [schemeBOverall_eq, h1, h2, h3]
  congr 1
  simp [categoryAverage]
  ring

/-- Witness for C2's amended statement on the profitability+leverage-only
RatioSet. -/
theorem category_weights_zero_filled_applied :
    schemeBOverall onlyProfLevRatios = round1 (
      categoryAverage (profitabilityScores onlyProfLevRatios) 0 * (3/10) +
      categoryAverage (leverageScores onlyProfLevRatios) 0 * (1/5) + 15/2) :=
  (category_weights_zero_filled onlyProfLevRatios).2
    (by simp [liquidityScores, onlyProfLevRatios, optScore])
    (by simp [cashFlowScores, onlyProfLevRatios, optScore])
    (by simp [growthScores, onlyProfLevRatios, optScore])

/-- C4 counterexample: quick_ratio substitutes 0 for a null current_assets
(via Python `or`), so a null required input yields 0, not null. -/
theorem quick_ratio_null_counterexample :
    nullCurrentAssets.current_assets = none ∧
    (computeRatios nullCurrentAssets).quick_ratio = some 0 ∧
    (computeRatios nullCurrentAssets).quick_ratio ≠ none := by
  have h : (computeRatios nullCurrentAssets).quick_ratio = some 0 := by
    norm_num [computeRatios, nullCurrentAssets, safe_divide, pyOrZero]
  exact ⟨rfl, h, by rw [h]; exact Option.some_ne_none 0⟩

/-- C4 (corrected): every ratio except quick_ratio is null exactly when a
required input (after the documented total_debt → total_liabilities
fallback) is null or its denominator is zero; quick_ratio treats a null
current_assets as 0 and is null exactly when current_liabilities is null
or zero.  All ratios are total functions: division by zero yields null
and never raises. -/
theorem ratio_nullness :
    ∀ i : MetricInputs,
      ((computeRatios i).current_ratio = none ↔
        i.current_assets = none ∨ i.current_liabilities = none ∨
        i.current_liabilities = some 0) ∧
      ((computeRatios i).quick_ratio = none ↔
        i.current_liabilities = none ∨ i.current_liabilities = some 0) ∧
      ((computeRatios i).cash_ratio = none ↔
        i.cash = none ∨ i.current_liabilities = none ∨ i.current_liabilities = some 0) ∧
      ((computeRatios i).gross_margin = none ↔
        i.gross_profit = none ∨ i.revenue = none ∨ i.revenue = some 0) ∧
      ((computeRatios i).operating_margin = none ↔
        i.operating_income = none ∨ i.revenue = none ∨ i.revenue = some 0) ∧
      ((computeRatios i).net_margin = none ↔
        i.net_income = none ∨ i.revenue = none ∨ i.revenue = some 0) ∧
      ((computeRatios i).roe = none ↔
        i.net_income = none ∨ i.total_equity = none ∨ i.total_equity = some 0) ∧
      ((computeRatios i).roa = none ↔
        i.net_income = none ∨ i.total_assets = none ∨ i.total_assets = some 0) ∧
      ((computeRatios i).debt_to_equity = none ↔
        ((i.total_debt = none ∨ i.total_debt = some 0) ∧ i.total_liabilities = none) ∨
        i.total_equity = none ∨ i.total_equity = some 0) ∧
      ((computeRatios i).debt_to_assets = none ↔
        ((i.total_debt = none ∨ i.total_debt = some 0) ∧ i.total_liabilities = none) ∨
        i.total_assets = none ∨ i.total_assets = some 0) ∧
      ((computeRatios i).asset_turnover = none ↔
        i.revenue = none ∨ i.total_assets = none ∨ i.total_assets = some 0) ∧
      ((computeRatios i).operating_cash_flow_ratio = none ↔
        i.operating_cf = none ∨ i.current_liabilities = none ∨
        i.current_liabilities = some 0) ∧
      ((computeRatios i).free_cash_flow_margin = none ↔
        i.free_cf = none ∨ i.revenue = none ∨ i.revenue = some 0) := by
  intro i
  refine ⟨safe_divide_eq_none_iff _ _, ?_, safe_divide_eq_none_iff _ _,
    safe_divide_eq_none_iff _ _, safe_divide_eq_none_iff _ _,
    safe_divide_eq_none_iff _ _, safe_divide_eq_none_iff _ _,
    safe_divide_eq_none_iff _ _, ?_, ?_, safe_divide_eq_none_iff _ _,
    safe_divide_eq_none_iff _ _, safe_divide_eq_none_iff _ _⟩
  · rw [show (computeRatios i).quick_ratio =
        safe_divide (some (pyOrZero i.current_assets - 0)) i.current_liabilities from rfl,
      safe_divide_eq_none_iff]
    simp
  · rw [show (computeRatios i).debt_to_equity =
        safe_divide (pyOr i.total_debt i.total_liabilities) i.total_equity from rfl,
      safe_divide_eq_none_iff, pyOr_eq_none_iff]
  · rw [show (computeRatios i).debt_to_assets =
        safe_divide (pyOr i.total_debt i.total_liabilities) i.total_assets from rfl,
      safe_divide_eq_none_iff, pyOr_eq_none_iff]

/-- C6: for every tracked metric, a value lying exactly on a named
threshold boundary scores the higher band (boundaries are inclusive on
the good side): the excellent threshold scores 100, good 75, fair 50 and
poor 25, both for reverse=false metrics (e.g. current_ratio == 2.0 → 100)
and reverse=true metrics (e.g. debt_to_equity == 0.5 → 100). -/
theorem score_metric_boundary_inclusive :
    ∀ nr ∈ trackedMetricDirections, boundaryInclusive nr.1 nr.2 := by
  intro nr h
  fin_cases h <;>
    norm_num [boundaryInclusive, THRESHOLDS, score_metric, bandScore]

/-- Witness for C6 at the claim's two examples: current_ratio (excellent
threshold 2.0, reverse=false) and debt_to_equity (excellent threshold
0.5, reverse=true). -/
theorem score_metric_boundary_inclusive_applied :
    boundaryInclusive ("current_ratio") false ∧
    boundaryInclusive ("debt_to_equity") true :=
  ⟨score_metric_boundary_inclusive ("current_ratio", false)
     (by simp [trackedMetricDirections]),
   score_metric_boundary_inclusive ("debt_to_equity", true)
     (by simp [trackedMetricDirections])⟩

/-- C7 counterexample: the gold-layer revenue_growth divides by the signed
previous revenue, not its absolute value: with current revenue 50 and
previous revenue −100 the code yields −1.5 while the claim's formula
gives +1.5. -/
theorem revenue_growth_denominator_counterexample :
    goldRevenueGrowth (some 50) (some (-100)) = some (-(3/2)) ∧
    ((50:ℚ) - (-100)) / |(-100:ℚ)| = 3/2 ∧
    (-(3/2) : ℚ) ≠ 3/2 := by
  refine ⟨?_, by norm_num, by norm_num⟩
  norm_num [goldRevenueGrowth, pyTruthy, pyOrZero, safe_divide]

/-- C7 (corrected): the gold-layer revenue_growth is
(current − previous) / previous — agreeing with the claimed
(current − previous) / |previous| only for positive previous revenue —
while the gold-layer profit_growth and both analyzer growth rates do
divide by the absolute previous value; every growth rate is null when
the previous value is null or zero (the analyzer's also when the current
value is null or zero). -/
theorem growth_rate_formulas :
    ∀ c p : ℚ,
      (p ≠ 0 → goldRevenueGrowth (some c) (some p) = some ((c - p) / p)) ∧
      (0 < p → goldRevenueGrowth (some c) (some p) = some ((c - p) / |p|)) ∧
      (p ≠ 0 → goldProfitGrowth (some c) (some p) = some ((c - p) / |p|)) ∧
      (c ≠ 0 → p ≠ 0 → analyzerGrowthRate (some c) (some p) = some ((c - p) / |p|)) ∧
      (∀ x : Option ℚ,
        goldRevenueGrowth x none = none ∧ goldRevenueGrowth x (some 0) = none ∧
        goldProfitGrowth x none = none ∧ goldProfitGrowth x (some 0) = none ∧
        analyzerGrowthRate x none = none ∧ analyzerGrowthRate x (some 0) = none ∧
        analyzerGrowthRate none x = none ∧ analyzerGrowthRate (some 0) x = none) := by
  intro c p
  refine ⟨?_, ?_, ?_, ?_, ?_⟩
  · intro hp
    simp [goldRevenueGrowth, pyTruthy, pyOrZero, safe_divide, hp]
  · intro hp
    have habs : |p| = p := abs_of_pos hp
    simp [goldRevenueGrowth, pyTruthy, pyOrZero, safe_divide, ne_of_gt hp, habs]
  · intro hp
    have habs : ¬ |p| = 0 := fun h => hp (abs_eq_zero.mp h)
    simp [goldProfitGrowth, pyTruthy, pyOrZero, safe_divide, hp, habs]
  · intro hc hp
    simp [analyzerGrowthRate, pyTruthy, pyOrZero, hc, hp]
  · intro x
    refine ⟨rfl, ?_, rfl, ?_, ?_, ?_, rfl, ?_⟩
    · simp [goldRevenueGrowth, pyTruthy]
    · simp [goldProfitGrowth, pyTruthy]
    · cases x <;> simp [analyzerGrowthRate, pyTruthy]
    · cases x <;> simp [analyzerGrowthRate, pyTruthy]
    · cases x <;> simp [analyzerGrowthRate, pyTruthy]

/-- Witness for C7's formulas at current 110, previous 100. -/
theorem growth_rate_formulas_applied :
    goldRevenueGrowth (some 110) (some 100) = some ((110 - 100) / 100) ∧
    goldProfitGrowth (some 110) (some 100) = some ((110 - 100) / |(100:ℚ)|) ∧
    analyzerGrowthRate (some 110) (some 100) = some ((110 - 100) / |(100:ℚ)|) :=
  ⟨(growth_rate_formulas 110 100).1 (by norm_num),
   (growth_rate_formulas 110 100).2.2.1 (by norm_num),
   (growth_rate_formulas 110 100).2.2.2.1 (by norm_num) (by norm_num)⟩

theorem filter_orderedInsert (c : ℚ) (x : String × ℚ) (l : List (String × ℚ)) :
    (List.orderedInsert rankRel x l).filter (fun y => decide (y.2 = c)) =
      if x.2 = c then x :: l.filter (fun y => decide (y.2 = c))
      else l.filter (fun y => decide (y.2 = c)) := by
  induction l with
  | nil =>
    by_cases hc : x.2 = c <;> simp [List.orderedInsert, hc]
  | cons y ys ih =>
    by_cases hr : rankRel x y
    · rw [List.orderedInsert, if_pos hr]
      by_cases hc : x.2 = c <;> simp [List.filter_cons, hc]
    · have hxy : x.2 < y.2 := not_le.mp hr
      rw [List.orderedInsert, if_neg hr]
      by_cases hc : x.2 = c
      · have hy : ¬ (y.2 = c) := by
          intro hyc
          rw [hyc, ← hc] at hxy
          exact lt_irrefl _ hxy
        simp [List.filter_cons, hc, hy, ih]
      · simp [List.filter_cons, hc, ih]

theorem filter_insertionSort (c : ℚ) (l : List (String × ℚ)) :
    (List.insertionSort rankRel l).filter (fun y => decide (y.2 = c)) =
      l.filter (fun y => decide (y.2 = c)) := by
  induction l with
  | nil => rfl
  | cons x xs ih =>
    rw [List.insertionSort, filter_orderedInsert]
    by_cases hc : x.2 = c <;> simp [List.filter_cons, hc, ih]

/-- C9 counterexample: MSFT and GOOGL tie at score 70; the code emits MSFT
first (TECH_COMPANIES insertion order), while the claimed
ticker-ascending tie-break would put GOOGL first. -/
theorem ranking_tiebreak_counterexample :
    rankedResults tiedScores = [("MSFT", 70), ("GOOGL", 70)] ∧
    specRankedResults tiedScores = [("GOOGL", 70), ("MSFT", 70)] ∧
    rankedResults tiedScores ≠ specRankedResults tiedScores := by
  have h1 : unsortedResults tiedScores = [("MSFT", (70:ℚ)), ("GOOGL", 70)] := by
    simp [unsortedResults, TECH_COMPANIES, tiedScores]
  have h2 : rankedResults tiedScores = [("MSFT", 70), ("GOOGL", 70)] := by
    rw [rankedResults, h1]
    simp [List.insertionSort, List.orderedInsert, rankRel]
  have h3 : specRankedResults tiedScores = [("GOOGL", 70), ("MSFT", 70)] := by
    rw [specRankedResults, h1]
    have hlt : ¬ ("MSFT" < "GOOGL") := by simp; decide
    simp [List.insertionSort, List.orderedInsert, specTieBreakRel, hlt]
  refine ⟨h2, h3, ?_⟩
  rw [h2, h3]
  simp

/-- C9 (corrected): the ranking is a stable sort by overall score
descending — it is sorted descending, is a permutation of the unsorted
results, and preserves the relative (TECH_COMPANIES insertion) order of
equal-score companies — but ties are NOT re-broken by ticker ascending. -/
theorem ranking_stable_descending :
    ∀ score : String → Option ℚ,
      (rankedResults score).Sorted rankRel ∧
      (rankedResults score).Perm (unsortedResults score) ∧
      (∀ c : ℚ, (rankedResults score).filter (fun y => decide (y.2 = c)) =
        (unsortedResults score).filter (fun y => decide (y.2 = c))) :=
  fun score =>
    ⟨List.sorted_insertionSort rankRel (unsortedResults score),
     List.perm_insertionSort rankRel (unsortedResults score),
     fun c => filter_insertionSort c (unsortedResults score)⟩

theorem goldRows_head_spec :
    ∀ (l : List SilverYear) (pr pn : Option ℚ) (r : GoldRow),
      (goldRows pr pn l).head? = some r →
      r.revenue_growth = goldRevenueGrowth r.revenue pr ∧
      r.profit_growth = goldProfitGrowth r.net_income pn ∧
      r.fiscal_year ∈ l.map SilverYear.fiscal_year := by
  intro l
  induction l with
  | nil => intro pr pn r h; simp [goldRows] at h
  | cons y ys ih =>
    intro pr pn r h
    rw [goldRows] at h
    split_ifs at h with hskip
    · obtain ⟨h1, h2, h3⟩ := ih _ _ _ h
      exact ⟨h1, h2, by simp only [List.map_cons, List.mem_cons]; right; exact h3⟩
    · simp only [List.head?_cons, Option.some.injEq] at h
      subst h
      exact ⟨rfl, rfl, by simp [mkGoldRow]⟩

theorem goldRows_chain_spec :
    ∀ (l : List SilverYear) (pr pn : Option ℚ),
      l.Pairwise (fun a b => b.fiscal_year < a.fiscal_year) →
      (goldRows pr pn l).Chain' goldChainProp := by
  intro l
  induction l with
  | nil => intro pr pn _; simp [goldRows]
  | cons y ys ih =>
    intro pr pn hsort
    obtain ⟨hy, hys⟩ := List.pairwise_cons.mp hsort
    rw [goldRows]
    split_ifs with hskip
    · exact ih _ _ hys
    · rw [List.chain'_cons']
      refine ⟨?_, ih _ _ hys⟩
      intro b hb
      obtain ⟨h1, h2, h3⟩ := goldRows_head_spec ys _ _ b (Option.mem_def.mp hb)
      refine ⟨h1, h2, ?_⟩
      obtain ⟨z, hz, hzy⟩ := List.mem_map.mp h3
      show b.fiscal_year < y.fiscal_year
      rw [← hzy]
      exact hy z hz

/-- C10: iterating a ticker's fiscal years newest-first while carrying the
previously processed year's revenue and net income means the newest
stored row has null growth rates, and every later (older-year) row's
growth rates are computed against the previously emitted,
chronologically later year's values. -/
theorem gold_growth_pairing :
    ∀ years : List SilverYear,
      years.Pairwise (fun a b => b.fiscal_year < a.fiscal_year) →
      (∀ r : GoldRow, (createGoldRows years).head? = some r →
        r.revenue_growth = none ∧ r.profit_growth = none) ∧
      (createGoldRows years).Chain' goldChainProp := by
  intro years hsort
  constructor
  · intro r h
    obtain ⟨h1, h2, _⟩ := goldRows_head_spec years none none r h
    exact ⟨by rw [h1]; rfl, by rw [h2]; rfl⟩
  · exact goldRows_chain_spec years none none hsort

/-- Witness for C10 on two descending fiscal years. -/
theorem gold_growth_pairing_applied :
    List.Pairwise (fun a b => b.fiscal_year < a.fiscal_year) twoYears ∧
    (createGoldRows twoYears).Chain' goldChainProp := by
  have hsort : List.Pairwise
      (fun a b => b.fiscal_year < a.fiscal_year) twoYears := by
    simp [twoYears, List.pairwise_cons]
  exact ⟨hsort, (gold_growth_pairing twoYears hsort).2⟩
